import Mathlib

/-!
Shallow embedding of `d3rlpy/logging/wandb_adapter.py`.

The module defines `LoggerWanDBAdapter`, a logging adapter forwarding
metrics, hyperparameters and model checkpoints to the external wandb
tracking client, and `WanDBAdapterFactory`, which constructs one adapter
per experiment name.

Modelling choices:
* Python method calls into the external wandb client and into the
  save-capable `algo` object are recorded as an explicit trace of
  `Effect` values; a Python method that mutates nothing returns its
  (unchanged) `self` alongside the trace.
* The global state of the wandb client (`wandb.init`, the process-wide
  `wandb.run`) is an explicit `WandbState` threaded through the calls
  that touch it.
* Python exceptions are `Except PyError`.
* Python `dict` literals are association lists built with Python's
  insertion/overwrite semantics (`dictInsert`).
* Paths are strings; `Path(d) / f` is string concatenation with "/",
  and the f-string `f"model_..."` is modelled with `toString` on the
  integer epoch, which agrees with Python's `str` on integers.
* Crucially for name resolution: `import wandb` occurs only inside the
  body of `LoggerWanDBAdapter.__init__`, so the name `wandb` is a local
  of that method and is NOT bound in the module's global namespace.
  `moduleGlobals` lists the names that ARE bound at module level in the
  source file; `save_model` resolves the bare name `wandb` against it.
-/

/-- A Python value, as far as the payloads of this module need. -/
inductive PyVal where
  | int : Int → PyVal
  | float : Rat → PyVal
  | str : String → PyVal
  | none : PyVal
deriving DecidableEq, Repr

/-- A Python `dict` with string keys, kept in insertion order. -/
abbrev PyDict := List (String × PyVal)

/-- Python dict assignment `d[k] = v`: overwrite in place if the key is
present (keeping its position), otherwise append at the end. -/
def dictInsert (d : PyDict) (k : String) (v : PyVal) : PyDict :=
  if d.any (fun p => p.1 == k) then
    d.map (fun p => if p.1 == k then (k, v) else p)
  else
    d ++ [(k, v)]

/-- The Python dict literal with two entries, evaluated left to right
with dict semantics (a repeated key keeps the later value). -/
def dictLit2 (k1 : String) (v1 : PyVal) (k2 : String) (v2 : PyVal) : PyDict :=
  dictInsert (dictInsert [] k1 v1) k2 v2

/-- Python exceptions relevant to this module. -/
inductive PyError where
  /-- The failure of `import wandb` itself (wandb not installed). -/
  | importErrorRaw : String → PyError
  /-- Error raised by `raise ImportError(msg) from cause`. -/
  | importErrorMsg : String → PyError → PyError
  /-- An unbound bare name at lookup time. -/
  | nameError : String → PyError
  /-- Attribute access on `None` (e.g. `wandb.run.dir` with no run). -/
  | attributeError : String → PyError
deriving DecidableEq, Repr

/-- A wandb run handle: opaque identity plus the data the adapter reads
from it (`run.dir` is the run's default working directory). -/
structure Run where
  id : Nat
  project : Option String
  displayName : Option String
  dir : String
deriving DecidableEq, Repr

/-- Process-wide state of the wandb client: a counter supplying fresh
run identities, the service's choice of working directory per run, and
the module-level `wandb.run` (the most recently initialized run). -/
structure WandbState where
  nextId : Nat
  dirOf : Nat → String
  currentRun : Option Run

/-- Client call `wandb.init(project=project, name=name)`: starts a fresh run (new
identity, service-chosen directory) and installs it as `wandb.run`. -/
def wandb_init (wb : WandbState) (project : Option String)
    (name : Option String) : Run × WandbState :=
  let r : Run :=
    { id := wb.nextId, project := project, displayName := name,
      dir := wb.dirOf wb.nextId }
  (r, { wb with nextId := wb.nextId + 1, currentRun := some r })

/-- The names bound in the global namespace of `wandb_adapter.py`: the
`from typing import ...` and `from pathlib import Path` and
`from .logger import ...` bindings, `__all__`, and the two classes.
`import wandb` happens inside `__init__` only, so `wandb` is absent. -/
def moduleGlobals : List String :=
  ["Any", "Dict", "Optional", "Path", "LoggerAdapter",
   "LoggerAdapterFactory", "SaveProtocol", "__all__",
   "LoggerWanDBAdapter", "WanDBAdapterFactory"]

/-- One observable call into an external collaborator. -/
inductive Effect where
  /-- Call `run.config.update(params)` on the run with this identity. -/
  | runConfigUpdate : Nat → PyDict → Effect
  /-- Call `run.log(payload, step=step)` on the run with this identity. -/
  | runLog : Nat → PyDict → Int → Effect
  /-- Call `run.finish()` on the run with this identity. -/
  | runFinish : Nat → Effect
  /-- Call `algo.save(path)`. -/
  | algoSave : String → Effect
deriving DecidableEq, Repr

/-- The adapter's instance state: the held run handle and the optional
model directory, both set in `__init__`. -/
structure LoggerWanDBAdapter where
  run : Run
  model_dir : Option String
deriving DecidableEq, Repr

/-- Constructor `LoggerWanDBAdapter.__init__(project, model_dir, experiment_name)`.
`importWandb` is the outcome of `import wandb`: on failure the
constructor raises `ImportError("Please install wandb")` chained from
the original error, touching the wandb state not at all; on success it
immediately calls `wandb.init` and stores the run handle and
`model_dir`. -/
def LoggerWanDBAdapter.construct (importWandb : Except PyError Unit)
    (wb : WandbState) (project : Option String) (model_dir : Option String)
    (experiment_name : Option String) :
    Except PyError LoggerWanDBAdapter × WandbState :=
  match importWandb with
  | .error e => (.error (.importErrorMsg "Please install wandb" e), wb)
  | .ok _ =>
    let (r, wb') := wandb_init wb project experiment_name
    (.ok { run := r, model_dir := model_dir }, wb')

/-- Method `write_params(params)`: `self.run.config.update(params)`. -/
def LoggerWanDBAdapter.write_params (self : LoggerWanDBAdapter)
    (params : PyDict) : List Effect × LoggerWanDBAdapter :=
  ([.runConfigUpdate self.run.id params], self)

/-- Method `before_write_metric(epoch, step)`: `pass`. -/
def LoggerWanDBAdapter.before_write_metric (self : LoggerWanDBAdapter)
    (_epoch _step : Int) : List Effect × LoggerWanDBAdapter :=
  ([], self)

/-- Method `write_metric(epoch, step, name, value)`:
`self.run.log({name: value, 'epoch': epoch}, step=step)`. -/
def LoggerWanDBAdapter.write_metric (self : LoggerWanDBAdapter)
    (epoch step : Int) (name : String) (value : Rat) :
    List Effect × LoggerWanDBAdapter :=
  ([.runLog self.run.id
      (dictLit2 name (.float value) "epoch" (.int epoch)) step], self)

/-- Method `after_write_metric(epoch, step)`: `pass`. -/
def LoggerWanDBAdapter.after_write_metric (self : LoggerWanDBAdapter)
    (_epoch _step : Int) : List Effect × LoggerWanDBAdapter :=
  ([], self)

/-- Method `save_model(epoch, algo)`: if `self.model_dir` is set, save to
`self.model_dir / f"model_{epoch}.d3"`. Otherwise the source evaluates
`Path(wandb.run.dir)`: the bare name `wandb` is resolved against the
module's globals (it is not there, since the import is local to
`__init__`), raising `NameError`; were it bound, `wandb.run` being
`None` would raise `AttributeError` and otherwise the global run's
directory would be used. -/
def LoggerWanDBAdapter.save_model (self : LoggerWanDBAdapter)
    (wb : WandbState) (epoch : Int) :
    Except PyError (List Effect) × LoggerWanDBAdapter :=
  match self.model_dir with
  | some d =>
    (.ok [.algoSave (d ++ "/model_" ++ toString epoch ++ ".d3")], self)
  | Option.none =>
    if moduleGlobals.contains "wandb" then
      match wb.currentRun with
      | some r =>
        (.ok [.algoSave (r.dir ++ "/model_" ++ toString epoch ++ ".d3")],
         self)
      | Option.none => (.error (.attributeError "dir"), self)
    else
      (.error (.nameError "wandb"), self)

/-- Method `close()`: `self.run.finish()`. -/
def LoggerWanDBAdapter.close (self : LoggerWanDBAdapter) :
    List Effect × LoggerWanDBAdapter :=
  ([.runFinish self.run.id], self)

/-- The factory's instance state, set in its `__init__`. -/
structure WanDBAdapterFactory where
  _project : Option String
  _model_dir : Option String
deriving DecidableEq, Repr

/-- Method `WanDBAdapterFactory.create(experiment_name)`: constructs
`LoggerWanDBAdapter(project=self._project, model_dir=self._model_dir,
experiment_name=experiment_name)`. The factory itself is returned
unchanged alongside the construction's outcome. -/
def WanDBAdapterFactory.create (f : WanDBAdapterFactory)
    (importWandb : Except PyError Unit) (wb : WandbState)
    (experiment_name : String) :
    (Except PyError LoggerWanDBAdapter × WandbState) × WanDBAdapterFactory :=
  (LoggerWanDBAdapter.construct importWandb wb f._project f._model_dir
     (some experiment_name), f)

/-! ## Claim theorems -/

/-- C1 (code evaluated at the failing input): for every adapter
constructed with no model directory, `save_model` does NOT obtain the
default working directory from the run handle and call `algo.save`; it
raises `NameError` on the bare name `wandb`, which is unbound at module
scope because `import wandb` is local to `__init__`. -/
theorem C1_save_model_default_dir_raises_nameError
    (r : Run) (wb : WandbState) (epoch : Int) :
    (LoggerWanDBAdapter.save_model { run := r, model_dir := Option.none }
        wb epoch)
      = (.error (.nameError "wandb"),
         { run := r, model_dir := Option.none }) := by
  rfl

/-- C2: for every epoch, step, name and value, `write_metric` makes
exactly one `run.log` call on the held run, with payload the Python
dict `{name: value, 'epoch': epoch}` and the given step; in particular
`write_metric(3, 100, "loss", 0.5)` logs `{"loss": 0.5, "epoch": 3}`
at step 100. -/
theorem C2_write_metric_logs_single_payload :
    (∀ (self : LoggerWanDBAdapter) (epoch step : Int) (name : String)
        (value : Rat),
        self.write_metric epoch step name value
          = ([.runLog self.run.id
                (dictLit2 name (.float value) "epoch" (.int epoch)) step],
             self))
    ∧ ∀ (self : LoggerWanDBAdapter),
        (self.write_metric 3 100 "loss" (1/2)).1
          = [.runLog self.run.id
               [("loss", .float (1/2)), ("epoch", .int 3)] 100] := by
  exact ⟨fun self epoch step name value => rfl, fun self => rfl⟩

/-- C3: for every adapter with a configured model directory `d`,
`save_model` succeeds with exactly one `algo.save` call on the path
`d ++ "/model_" ++ epoch ++ ".d3"`; in particular with model
directory "/out" and epoch 5 the path is "/out/model_5.d3". -/
theorem C3_save_model_with_model_dir :
    (∀ (r : Run) (d : String) (wb : WandbState) (epoch : Int),
        LoggerWanDBAdapter.save_model { run := r, model_dir := some d }
            wb epoch
          = (.ok [.algoSave (d ++ "/model_" ++ toString epoch ++ ".d3")],
             { run := r, model_dir := some d }))
    ∧ ∀ (r : Run) (wb : WandbState),
        (LoggerWanDBAdapter.save_model { run := r, model_dir := some "/out" }
            wb 5).1
          = .ok [.algoSave "/out/model_5.d3"] := by
  exact ⟨fun r d wb epoch => rfl, fun r wb => rfl⟩

/-- C4: when `import wandb` fails, the constructor raises
`ImportError("Please install wandb")` chained from the original
failure and leaves the wandb state untouched (no run initialized);
when the import succeeds, the constructor immediately initializes a
run (the returned adapter holds the newly created run, which has
become the client's current run, and the fresh-run counter advanced). -/
theorem C4_construct_import_error_or_eager_run :
    (∀ (e : PyError) (wb : WandbState) (p md en : Option String),
        LoggerWanDBAdapter.construct (.error e) wb p md en
          = (.error (.importErrorMsg "Please install wandb" e), wb))
    ∧ ∀ (wb : WandbState) (p md en : Option String),
        ∃ (r : Run) (wb' : WandbState),
          LoggerWanDBAdapter.construct (.ok ()) wb p md en
            = (.ok { run := r, model_dir := md }, wb')
          ∧ wb'.currentRun = some r
          ∧ wb'.nextId = wb.nextId + 1 := by
  refine ⟨fun e wb p md en => rfl, fun wb p md en => ?_⟩
  exact ⟨(wandb_init wb p en).1, (wandb_init wb p en).2, rfl, rfl, rfl⟩

/-- C5: two successive successful `create` calls on a factory yield two
adapters whose run handles are distinct (distinct identities, nothing
shared), each bound to the factory's project and model directory and
carrying its own experiment name as the run's display name. -/
theorem C5_create_fresh_independent_runs
    (f : WanDBAdapterFactory) (wb : WandbState) (n1 n2 : String) :
    ∃ (a1 a2 : LoggerWanDBAdapter),
      (f.create (.ok ()) wb n1).1.1 = .ok a1
      ∧ (f.create (.ok ()) ((f.create (.ok ()) wb n1).1.2) n2).1.1 = .ok a2
      ∧ a1.run.id ≠ a2.run.id
      ∧ a1.run ≠ a2.run
      ∧ a1.run.project = f._project ∧ a2.run.project = f._project
      ∧ a1.model_dir = f._model_dir ∧ a2.model_dir = f._model_dir
      ∧ a1.run.displayName = some n1
      ∧ a2.run.displayName = some n2 := by
  refine ⟨{ run := { id := wb.nextId, project := f._project,
                     displayName := some n1, dir := wb.dirOf wb.nextId },
            model_dir := f._model_dir },
          { run := { id := wb.nextId + 1, project := f._project,
                     displayName := some n2,
                     dir := wb.dirOf (wb.nextId + 1) },
            model_dir := f._model_dir },
          rfl, rfl, by show wb.nextId ≠ wb.nextId + 1; omega, ?_,
          rfl, rfl, rfl, rfl, rfl, rfl⟩
  intro h
  have hid := congrArg Run.id h
  simp only at hid
  omega

/-- C6: every `close()` call performs exactly one operation, the held
run handle's `finish`, and leaves the adapter unchanged. -/
theorem C6_close_finishes_exactly_once (self : LoggerWanDBAdapter) :
    self.close = ([.runFinish self.run.id], self) := by
  rfl

/-- C7: `write_params` forwards exactly the given mapping, unmodified,
to the held run's `config.update`, with no other effect; in particular
`write_params({"lr": 0.001})` sends exactly that key and value. -/
theorem C7_write_params_passes_mapping_unmodified :
    (∀ (self : LoggerWanDBAdapter) (params : PyDict),
        self.write_params params
          = ([.runConfigUpdate self.run.id params], self))
    ∧ ∀ (self : LoggerWanDBAdapter),
        (self.write_params [("lr", .float (1/1000))]).1
          = [.runConfigUpdate self.run.id [("lr", .float (1/1000))]] := by
  exact ⟨fun self params => rfl, fun self => rfl⟩

/-- C8: the adapter's fields (run handle and model directory) are
unchanged by `write_params`, `before_write_metric`, `write_metric`,
`after_write_metric`, `save_model` and `close`, and the factory's
fields are unchanged by `create`. -/
theorem C8_fields_assigned_only_in_constructors
    (self : LoggerWanDBAdapter) (params : PyDict) (epoch step : Int)
    (name : String) (value : Rat) (wb : WandbState)
    (f : WanDBAdapterFactory) (imp : Except PyError Unit) (en : String) :
    (self.write_params params).2 = self
    ∧ (self.before_write_metric epoch step).2 = self
    ∧ (self.write_metric epoch step name value).2 = self
    ∧ (self.after_write_metric epoch step).2 = self
    ∧ (self.save_model wb epoch).2 = self
    ∧ self.close.2 = self
    ∧ (f.create imp wb en).2 = f := by
  obtain ⟨r, md⟩ := self
  refine ⟨rfl, rfl, rfl, rfl, ?_, rfl, rfl⟩
  cases md with
  | none => cases wb.currentRun <;> rfl
  | some d => rfl

/-- C9: calling `write_metric` with the metric name "epoch" logs the
single-key mapping whose only entry is "epoch" bound to the epoch tag:
the caller's value is overwritten and never reaches the `run.log`
call. -/
theorem C9_epoch_name_collision_drops_value (self : LoggerWanDBAdapter)
    (epoch step : Int) (value : Rat) :
    (self.write_metric epoch step "epoch" value).1
      = [.runLog self.run.id [("epoch", .int epoch)] step] := by
  rfl

/-- C10: `save_model` performs no operation on the adapter's held run
handle (no log, no config update, no finish, no upload): every
execution either performs exactly one effect, an `algo.save` call, or
raises an exception having performed no effect at all. -/
theorem C10_save_model_touches_no_run_handle (self : LoggerWanDBAdapter)
    (wb : WandbState) (epoch : Int) :
    (∃ p, (self.save_model wb epoch).1 = .ok [.algoSave p])
    ∨ ∃ err, (self.save_model wb epoch).1 = .error err := by
  obtain ⟨r, md⟩ := self
  cases md with
  | some d => exact .inl ⟨d ++ "/model_" ++ toString epoch ++ ".d3", rfl⟩
  | none => exact .inr ⟨.nameError "wandb", rfl⟩
